import Mathlib

/-!
Verification of the HydroVerde relay controller (src/stream.py).

The script is a single Streamlit control loop: on each rerun it reads the
DHT sensor (`read_sensor_data`), runs one scheduling tick
(`check_and_control_relay`), and renders buttons whose handlers implement
the manual ON/OFF commands, the resume-schedule command and the
update-schedule command.

Shallow embedding choices:
* Times of day (`datetime.time`) are encoded as seconds since midnight
  (`Nat`); Python's comparison operators on `time` are order-isomorphic to
  `Nat` comparisons under this encoding, and only comparisons are applied
  to times in the source.
* The mutable session state (`st.session_state.relay_state`,
  `st.session_state.manual_override`) becomes an explicit `SysState`
  record threaded through each transition function.
* The physical relay (`GPIO.output(RELAY_PIN, ...)`) is modelled by two
  fields of `SysState`: `pin`, the last commanded output level, and
  `driverCalls`, a counter incremented at every `GPIO.output` call, so
  that "no driver call happened" is expressible.
* Sensor hardware is modelled by a `ReadOutcome` describing what one pass
  over `dht_device.temperature` / `dht_device.humidity` yielded: either
  both property reads returned (each possibly `None`), or an exception
  was raised (the two `except` arms of the source).
-/

namespace HydroVerde

/-- Relay status string: `"ON"` or `"OFF"` in `st.session_state.relay_state["status"]`. -/
inductive Status
  | ON
  | OFF
  deriving DecidableEq, Repr

/-- Digital output level written by `GPIO.output(RELAY_PIN, _)`:
`GPIO.LOW` energises the relay, `GPIO.HIGH` de-energises it. -/
inductive PinLevel
  | LOW
  | HIGH
  deriving DecidableEq, Repr

/-- `st.session_state.relay_state`: schedule window bounds plus current status.
Times are seconds since midnight. -/
structure RelayState where
  start_time : Nat
  end_time : Nat
  status : Status
  deriving DecidableEq, Repr

/-- Whole mutable state of the control loop: the relay session state, the
`manual_override` flag, and the modelled relay driver (`pin` is the last
commanded level, `driverCalls` counts `GPIO.output` calls). -/
structure SysState where
  relay : RelayState
  manual_override : Bool
  pin : PinLevel
  driverCalls : Nat
  deriving DecidableEq, Repr

/-- Seconds since midnight for an `h:m` time of day, mirroring `dt_time(h, m)`. -/
def timeHM (h m : Nat) : Nat :=
  (h * 60 + m) * 60

/-- State right after one-time initialization: `setup_gpio` drives the pin
`HIGH` (safe default, zero `GPIO.output` calls counted as one initial
assertion is excluded from `driverCalls`, which counts control-loop calls),
and the session-state block sets the window `05:30`–`09:30`, status `OFF`,
`manual_override = False`. -/
def initSysState : SysState :=
  { relay := { start_time := timeHM 5 30, end_time := timeHM 9 30, status := Status.OFF }
    manual_override := false
    pin := PinLevel.HIGH
    driverCalls := 0 }

/-- Schedule evaluation inside `check_and_control_relay` (src/stream.py lines
97–105): starts from `is_on_schedule = False`; if `start > end` (overnight)
it becomes `True` when `now >= start or now < end`, otherwise (same-day)
when `start <= now < end`. -/
def isOnSchedule (start_time end_time now : Nat) : Bool :=
  if start_time > end_time then
    if now ≥ start_time ∨ now < end_time then true else false
  else
    if start_time ≤ now ∧ now < end_time then true else false

/-- `check_and_control_relay` (src/stream.py lines 86–116), one Tick at time
`now`: skipped entirely when `manual_override` is set; otherwise evaluates
the schedule and, only when the scheduled value differs from `status`,
issues one `GPIO.output` call and updates `status`. -/
def check_and_control_relay (now : Nat) (s : SysState) : SysState :=
  if s.manual_override = true then s
  else
    let is_on_schedule := isOnSchedule s.relay.start_time s.relay.end_time now
    if is_on_schedule = true ∧ s.relay.status = Status.OFF then
      { s with relay := { s.relay with status := Status.ON }
               pin := PinLevel.LOW
               driverCalls := s.driverCalls + 1 }
    else if is_on_schedule = false ∧ s.relay.status = Status.ON then
      { s with relay := { s.relay with status := Status.OFF }
               pin := PinLevel.HIGH
               driverCalls := s.driverCalls + 1 }
    else s

/-- A sequence of Ticks at the given times, in order. -/
def ticks (times : List Nat) (s : SysState) : SysState :=
  times.foldl (fun t n => check_and_control_relay n t) s

/-- The "Turn ON Now" / "Turn OFF Now" button handlers (src/stream.py lines
155–173). Each button carries `disabled=st.session_state.relay_state["status"] == X`,
so the command is unavailable (`none`) when the status already equals the
commanded value; when available, the handler writes the matching pin level,
sets `status` to the commanded value and raises `manual_override`. -/
def manualCommand (x : Status) (s : SysState) : Option SysState :=
  match x with
  | Status.ON =>
      if s.relay.status = Status.ON then none
      else some { s with relay := { s.relay with status := Status.ON }
                         manual_override := true
                         pin := PinLevel.LOW
                         driverCalls := s.driverCalls + 1 }
  | Status.OFF =>
      if s.relay.status = Status.OFF then none
      else some { s with relay := { s.relay with status := Status.OFF }
                         manual_override := true
                         pin := PinLevel.HIGH
                         driverCalls := s.driverCalls + 1 }

/-- The "Resume Automated Schedule" button handler (src/stream.py lines
146–152): only rendered while `manual_override` is set; its body just
clears `manual_override` (the toast, sleep and rerun touch no state). -/
def resumeSchedule (s : SysState) : SysState :=
  { s with manual_override := false }

/-- The "Update Schedule" button handler (src/stream.py lines 197–211):
stores the two time inputs into the window, clears `manual_override` when
it was set, then calls `check_and_control_relay` synchronously before the
rerun. -/
def updateSchedule (newStart newEnd now : Nat) (s : SysState) : SysState :=
  let s1 : SysState :=
    { s with relay := { s.relay with start_time := newStart, end_time := newEnd } }
  let s2 : SysState :=
    if s1.manual_override = true then { s1 with manual_override := false } else s1
  check_and_control_relay now s2

/-- `st.session_state.sensor_data`: the two displayed strings, each either
the initial `"N/A"` or a formatted reading. -/
structure SensorData where
  temperature : String
  humidity : String
  deriving DecidableEq, Repr

/-- Outcome of one pass over `dht_device.temperature` and
`dht_device.humidity` inside the `try` block: both property reads returned
(each possibly `None`), or a `RuntimeError` was raised, or some other
exception was raised. DHT11 readings are integral, hence `Int`. -/
inductive ReadOutcome
  | ok : Option Int → Option Int → ReadOutcome
  | runtimeError : ReadOutcome
  | unexpectedError : ReadOutcome
  deriving DecidableEq, Repr

/-- `read_sensor_data` (src/stream.py lines 68–84): returns immediately when
the device is absent (`dht_device is None`); stores freshly formatted
strings only when both readings are non-`None`; both `except` arms only
print, leaving the stored data unchanged, so the function is total — no
exception propagates. -/
def read_sensor_data (deviceAbsent : Bool) (r : ReadOutcome) (sd : SensorData) : SensorData :=
  if deviceAbsent = true then sd
  else
    match r with
    | ReadOutcome.ok (some t) (some h) =>
        { temperature := toString t ++ "°C", humidity := toString h ++ "%" }
    | ReadOutcome.ok _ _ => sd
    | ReadOutcome.runtimeError => sd
    | ReadOutcome.unexpectedError => sd

/-- The modelled driver level that a status write is accompanied by:
`status = ON` is always written together with `GPIO.LOW`, `status = OFF`
with `GPIO.HIGH`. -/
def pinLevelFor : Status → PinLevel
  | Status.ON => PinLevel.LOW
  | Status.OFF => PinLevel.HIGH

/-- The status/pin coupling invariant: the stored status is `ON` exactly
when the last commanded pin level is `LOW`, and `OFF` exactly when it is
`HIGH`. -/
def statusPinAgree (s : SysState) : Prop :=
  (s.relay.status = Status.ON ↔ s.pin = PinLevel.LOW) ∧
  (s.relay.status = Status.OFF ↔ s.pin = PinLevel.HIGH)

instance (s : SysState) : Decidable (statusPinAgree s) := by
  unfold statusPinAgree
  infer_instance

/-! Theorems. -/

theorem tick_skip_of_override (now : Nat) (s : SysState) (h : s.manual_override = true) :
    check_and_control_relay now s = s := by
  unfold check_and_control_relay
  rw [if_pos h]

theorem ticks_skip_of_override (times : List Nat) (s : SysState)
    (h : s.manual_override = true) : ticks times s = s := by
  induction times generalizing s with
  | nil => rfl
  | cons n rest ih =>
      show ticks rest (check_and_control_relay n s) = s
      rw [tick_skip_of_override n s h]
      exact ih s h

theorem manualCommand_sets_override (x : Status) (s s' : SysState)
    (h : manualCommand x s = some s') : s'.manual_override = true := by
  cases x <;> simp only [manualCommand] at h <;> split at h
  · exact Option.noConfusion h
  · injection h with h2
    rw [← h2]
  · exact Option.noConfusion h
  · injection h with h2
    rw [← h2]

/-- C1: for every state with `override == true`, a Tick
(`check_and_control_relay`) is a no-op — no driver call, and status,
override flag and schedule window all unchanged; hence once a
`ManualCommand` has been issued, any number of subsequent Ticks leave the
whole state (in particular status and override) unchanged. -/
theorem tick_noop_under_override :
    (∀ s now, s.manual_override = true → check_and_control_relay now s = s) ∧
    (∀ s x s' times, manualCommand x s = some s' → ticks times s' = s') := by
  constructor
  · intro s now h
    exact tick_skip_of_override now s h
  · intro s x s' times h
    exact ticks_skip_of_override times s' (manualCommand_sets_override x s s' h)

/-- Witness for C1: at a concrete overridden state a Tick does nothing, and
after a concrete manual ON command two further Ticks do nothing. -/
theorem tick_noop_under_override_witness :
    check_and_control_relay 0 { initSysState with manual_override := true }
      = { initSysState with manual_override := true } ∧
    ticks [0, 3600] ((manualCommand Status.ON initSysState).getD initSysState)
      = (manualCommand Status.ON initSysState).getD initSysState := by
  refine ⟨tick_noop_under_override.1 _ 0 rfl, ?_⟩
  exact tick_noop_under_override.2 initSysState Status.ON _ [0, 3600] rfl

/-- C2: for every prior state and any old override value,
`UpdateSchedule(newStart, newEnd)` replaces the window, clears the
override flag, and is exactly one synchronous Tick on the re-windowed
state, so afterwards the status equals the new window's scheduled value at
the evaluation time. -/
theorem updateSchedule_resyncs (s : SysState) (newStart newEnd now : Nat) :
    (updateSchedule newStart newEnd now s).relay.start_time = newStart ∧
    (updateSchedule newStart newEnd now s).relay.end_time = newEnd ∧
    (updateSchedule newStart newEnd now s).manual_override = false ∧
    (updateSchedule newStart newEnd now s).relay.status
      = (if isOnSchedule newStart newEnd now = true then Status.ON else Status.OFF) ∧
    updateSchedule newStart newEnd now s
      = check_and_control_relay now
          { s with relay := { s.relay with start_time := newStart, end_time := newEnd }
                   manual_override := false } := by
  obtain ⟨⟨a, b, stat⟩, ov, p, d⟩ := s
  cases ov <;> cases hs : isOnSchedule newStart newEnd now <;> cases stat <;>
    simp [updateSchedule, check_and_control_relay, hs]

/-- A state whose relay is already ON, schedule mode active. Reachable:
start from `initSysState` and fire one in-window Tick. -/
def onState : SysState :=
  { relay := { start_time := timeHM 5 30, end_time := timeHM 9 30, status := Status.ON }
    manual_override := false
    pin := PinLevel.LOW
    driverCalls := 1 }

/-- C3 counterexample: with status already ON, the "Turn ON Now" button is
rendered with `disabled=True` (src/stream.py line 158), so ManualCommand(ON)
is not available there and performs no driver call and no state update —
contradicting "unconditionally, even when status already equals X". -/
theorem manualCommand_not_unconditional :
    manualCommand Status.ON onState = none ∧
    ¬ ∃ s', manualCommand Status.ON onState = some s' ∧
        s'.manual_override = true ∧ s'.relay.status = Status.ON ∧
        s'.driverCalls = onState.driverCalls + 1 := by
  constructor
  · rfl
  · rintro ⟨s', hs, -⟩
    rw [show manualCommand Status.ON onState = none from rfl] at hs
    exact Option.noConfusion hs

/-- C3 amended: whenever the current status differs from the commanded
value X (the only case in which the button is enabled), ManualCommand(X)
sets `override = true`, issues the matching driver call, updates status to
X and leaves the schedule window unchanged; when status already equals X
the button is disabled and the command is unavailable. -/
theorem manualCommand_amended (s : SysState) (x : Status) (h : s.relay.status ≠ x) :
    ∃ s', manualCommand x s = some s' ∧
      s'.manual_override = true ∧
      s'.relay.status = x ∧
      s'.pin = pinLevelFor x ∧
      s'.driverCalls = s.driverCalls + 1 ∧
      s'.relay.start_time = s.relay.start_time ∧
      s'.relay.end_time = s.relay.end_time := by
  cases x with
  | ON =>
      refine ⟨{ s with relay := { s.relay with status := Status.ON }
                       manual_override := true
                       pin := PinLevel.LOW
                       driverCalls := s.driverCalls + 1 },
              ?_, rfl, rfl, rfl, rfl, rfl, rfl⟩
      simp only [manualCommand]
      rw [if_neg h]
  | OFF =>
      refine ⟨{ s with relay := { s.relay with status := Status.OFF }
                       manual_override := true
                       pin := PinLevel.HIGH
                       driverCalls := s.driverCalls + 1 },
              ?_, rfl, rfl, rfl, rfl, rfl, rfl⟩
      simp only [manualCommand]
      rw [if_neg h]

/-- Witness for C3 amended: from the initial OFF state, ManualCommand(ON)
executes with all the stated effects. -/
theorem manualCommand_amended_witness :
    initSysState.relay.status ≠ Status.ON ∧
    ∃ s', manualCommand Status.ON initSysState = some s' ∧
      s'.manual_override = true ∧
      s'.relay.status = Status.ON ∧
      s'.pin = pinLevelFor Status.ON ∧
      s'.driverCalls = initSysState.driverCalls + 1 ∧
      s'.relay.start_time = initSysState.relay.start_time ∧
      s'.relay.end_time = initSysState.relay.end_time :=
  ⟨by decide, manualCommand_amended initSysState Status.ON (by decide)⟩

/-- C4: for an overnight window (`start > end`) the schedule evaluation of
a Tick yields on iff `now >= start` or `now < end`. -/
theorem isOnSchedule_overnight (start_time end_time now : Nat)
    (h : start_time > end_time) :
    isOnSchedule start_time end_time now = true ↔ (now ≥ start_time ∨ now < end_time) := by
  unfold isOnSchedule
  rw [if_pos h]
  by_cases hp : now ≥ start_time ∨ now < end_time
  · simp [hp]
  · simp [hp]

/-- Witness for C4: window 22:00–06:00 is on at 23:00. -/
theorem isOnSchedule_overnight_witness :
    timeHM 22 0 > timeHM 6 0 ∧
    isOnSchedule (timeHM 22 0) (timeHM 6 0) (timeHM 23 0) = true :=
  ⟨by decide,
   (isOnSchedule_overnight (timeHM 22 0) (timeHM 6 0) (timeHM 23 0) (by decide)).mpr
     (Or.inl (by decide))⟩

/-- C5: for a same-day window (`start <= end`) the schedule evaluation of a
Tick yields on iff `start <= now < end`; in particular an empty window
(`start == end`) yields off for every `now`. -/
theorem isOnSchedule_sameday (start_time end_time now : Nat)
    (h : start_time ≤ end_time) :
    (isOnSchedule start_time end_time now = true ↔ (start_time ≤ now ∧ now < end_time)) ∧
    (start_time = end_time → isOnSchedule start_time end_time now = false) := by
  constructor
  · unfold isOnSchedule
    rw [if_neg (by omega)]
    by_cases hp : start_time ≤ now ∧ now < end_time
    · simp [hp]
    · simp [hp]
  · intro he
    unfold isOnSchedule
    rw [if_neg (by omega), if_neg (by omega)]

/-- Witness for C5: the degenerate window 09:00–09:00 is off at noon. -/
theorem isOnSchedule_sameday_witness :
    timeHM 9 0 ≤ timeHM 9 0 ∧
    isOnSchedule (timeHM 9 0) (timeHM 9 0) (timeHM 12 0) = false :=
  ⟨by decide, (isOnSchedule_sameday (timeHM 9 0) (timeHM 9 0) (timeHM 12 0) (by decide)).2 rfl⟩

/-- C6: with `override == false`, a Tick is idempotent — a second Tick at
the same time-of-day changes nothing (same `driverCalls`, so no additional
driver call, and no status change). -/
theorem tick_idempotent (now : Nat) (s : SysState) (h : s.manual_override = false) :
    check_and_control_relay now (check_and_control_relay now s)
      = check_and_control_relay now s := by
  obtain ⟨⟨a, b, stat⟩, ov, p, d⟩ := s
  dsimp only at h
  subst h
  cases hs : isOnSchedule a b now <;> cases stat <;>
    simp [check_and_control_relay, hs]

/-- Witness for C6: concrete double Tick at 10:00 from the initial state. -/
theorem tick_idempotent_witness :
    check_and_control_relay (timeHM 10 0) (check_and_control_relay (timeHM 10 0) initSysState)
      = check_and_control_relay (timeHM 10 0) initSysState :=
  tick_idempotent (timeHM 10 0) initSysState rfl

/-- C7: for every state, ResumeSchedule clears the override flag and
changes nothing else — relay state (status and window) untouched, last
commanded pin level untouched, and no driver call (`driverCalls`
unchanged). -/
theorem resumeSchedule_frame (s : SysState) :
    (resumeSchedule s).manual_override = false ∧
    (resumeSchedule s).relay = s.relay ∧
    (resumeSchedule s).pin = s.pin ∧
    (resumeSchedule s).driverCalls = s.driverCalls :=
  ⟨rfl, rfl, rfl, rfl⟩

/-- C8: a failed sensor read — device absent, a RuntimeError from the
driver, or any other exception — leaves the stored temperature and
humidity strings unchanged; `read_sensor_data` is a total function, so no
exception reaches the caller. -/
theorem read_failure_preserves_data (deviceAbsent : Bool) (r : ReadOutcome)
    (sd : SensorData)
    (h : deviceAbsent = true ∨ r = ReadOutcome.runtimeError ∨
         r = ReadOutcome.unexpectedError) :
    read_sensor_data deviceAbsent r sd = sd := by
  rcases h with h | h | h
  · simp [read_sensor_data, h]
  · subst h
    cases deviceAbsent <;> rfl
  · subst h
    cases deviceAbsent <;> rfl

/-- Witness for C8: a RuntimeError read leaves concrete stored values as
they were. -/
theorem read_failure_preserves_data_witness :
    read_sensor_data false ReadOutcome.runtimeError
        { temperature := "21°C", humidity := "60%" }
      = { temperature := "21°C", humidity := "60%" } :=
  read_failure_preserves_data false ReadOutcome.runtimeError
    { temperature := "21°C", humidity := "60%" } (Or.inr (Or.inl rfl))

/-- C9: temperature and humidity are updated only jointly — a read in
which either value comes back `None` updates neither stored field. -/
theorem joint_update_only (t hum : Option Int) (sd : SensorData)
    (hm : t = none ∨ hum = none) :
    read_sensor_data false (ReadOutcome.ok t hum) sd = sd := by
  rcases hm with hm | hm
  · subst hm
    cases hum <;> rfl
  · subst hm
    cases t <;> rfl

/-- Witness for C9: a valid temperature with a missing humidity updates
neither field. -/
theorem joint_update_only_witness :
    read_sensor_data false (ReadOutcome.ok (some 21) none)
        { temperature := "N/A", humidity := "N/A" }
      = { temperature := "N/A", humidity := "N/A" } :=
  joint_update_only (some 21) none { temperature := "N/A", humidity := "N/A" }
    (Or.inr rfl)

theorem statusPinAgree_tick (now : Nat) (s : SysState) (h : statusPinAgree s) :
    statusPinAgree (check_and_control_relay now s) := by
  obtain ⟨⟨a, b, stat⟩, ov, p, d⟩ := s
  cases ov <;> cases stat <;> cases p <;>
    cases hs : isOnSchedule a b now <;>
      simp_all [check_and_control_relay, statusPinAgree]

theorem statusPinAgree_manual (x : Status) (s s' : SysState)
    (h : manualCommand x s = some s') : statusPinAgree s' := by
  cases x <;> simp only [manualCommand] at h <;> split at h
  · exact Option.noConfusion h
  · injection h with h2
    subst h2
    exact ⟨by simp, by simp⟩
  · exact Option.noConfusion h
  · injection h with h2
    subst h2
    exact ⟨by simp, by simp⟩

theorem statusPinAgree_update (newStart newEnd now : Nat) (s : SysState)
    (h : statusPinAgree s) : statusPinAgree (updateSchedule newStart newEnd now s) := by
  unfold updateSchedule
  apply statusPinAgree_tick
  split
  · exact h
  · exact h

/-- C10: after one-time initialization (relay pin driven HIGH, status OFF)
the status/pin coupling holds — status is ON exactly when the last
commanded pin level is LOW and OFF exactly when it is HIGH — and every
operation (Tick, ManualCommand, ResumeSchedule, UpdateSchedule) preserves
it, because each status write is issued together with the matching GPIO
write. -/
theorem status_pin_invariant :
    statusPinAgree initSysState ∧
    (∀ s now, statusPinAgree s → statusPinAgree (check_and_control_relay now s)) ∧
    (∀ s x s', statusPinAgree s → manualCommand x s = some s' → statusPinAgree s') ∧
    (∀ s, statusPinAgree s → statusPinAgree (resumeSchedule s)) ∧
    (∀ s newStart newEnd now, statusPinAgree s →
      statusPinAgree (updateSchedule newStart newEnd now s)) := by
  refine ⟨by decide, ?_, ?_, ?_, ?_⟩
  · intro s now h
    exact statusPinAgree_tick now s h
  · intro s x s' _ h
    exact statusPinAgree_manual x s s' h
  · intro s h
    exact h
  · intro s newStart newEnd now h
    exact statusPinAgree_update newStart newEnd now s h

/-- Witness for C10: the invariant holds at the initial state, after an
in-window Tick at 06:00, and after ResumeSchedule. -/
theorem status_pin_invariant_witness :
    statusPinAgree (check_and_control_relay (timeHM 6 0) initSysState) ∧
    statusPinAgree (resumeSchedule initSysState) :=
  ⟨status_pin_invariant.2.1 initSysState (timeHM 6 0) (by decide),
   status_pin_invariant.2.2.2.1 initSysState (by decide)⟩

end HydroVerde
